import Mathlib

set_option maxRecDepth 8192

/- Shallow embedding of the install-as-a-service HTTP handler (main.go of
   the pip variant, whose structure the npm variant mirrors line for line).
   Pure data flow is translated directly; the filesystem, the installer
   subprocess and the wire formats appear as explicit parameters of the
   handler, and the observable outcome of a request is a record of the
   response pieces plus workspace bookkeeping. -/

namespace PipInstall

/- Decoded request payload, mirroring the Go struct PythonFiles with json
   tags "requirements.txt" and "constraints.txt,omitempty"; a key absent
   from the JSON body leaves the Go zero value "". -/
structure PythonFiles where
  requirementsTXT : String
  constraintsTXT : String
deriving Repr, DecidableEq

/- The npm variant's decoded payload (struct PackageFiles, json tags
   "package.json" and "package-lock.json,omitempty"). -/
structure PackageFiles where
  packageJSON : String
  packageLockJSON : String
deriving Repr, DecidableEq

/- A directory tree as the installer may leave it on disk.  Written as a
   pair of mutual inductives (tree and named-children spine) so that all
   recursion below is structural and reduces inside the kernel. -/
mutual
inductive FSTree where
  | file (content : String)
  | dir (children : FSList)
inductive FSList where
  | nil
  | cons (name : String) (tree : FSTree) (rest : FSList)
end

/- strings.HasPrefix and strings.HasSuffix, written by structural
   recursion over the character lists so that they evaluate inside the
   kernel. -/
def charsPrefix : List Char → List Char → Bool
  | [], _ => true
  | _ :: _, [] => false
  | c :: cs, d :: ds => c == d && charsPrefix cs ds

def hasPrefix (s pre : String) : Bool := charsPrefix pre.data s.data

def hasSuffix (s post : String) : Bool :=
  charsPrefix post.data.reverse s.data.reverse

/- filepath.Walk reads each directory's entries in ascending name order
   (readDirNames sorts them); insertion sort by name models that. -/
def insertByName (n : String) (t : FSTree) : FSList → FSList
  | .nil => .cons n t .nil
  | .cons m u rest =>
      if n < m then .cons n t (.cons m u rest)
      else .cons m u (insertByName n t rest)

def sortFSList : FSList → FSList
  | .nil => .nil
  | .cons n t rest => insertByName n t (sortFSList rest)

mutual
def normTree : FSTree → FSTree
  | .file c => .file c
  | .dir cs => .dir (sortFSList (normList cs))
def normList : FSList → FSList
  | .nil => .nil
  | .cons n t rest => .cons n (normTree t) (normList rest)
end

/- The walk function passed to filepath.Walk in handleInstall, applied in
   pre-order to the output subtree.  relPath is filepath.Rel(tmpDir, path)
   with separators already normalized to "/".  For a directory the entry
   name gets a trailing "/" and is emitted before the children; the
   relPath "." and ".." guard of the source is kept even though the walk
   root is tmpDir/site-packages, never tmpDir itself.  failAt injects the
   first entry at which zipWriter.CreateHeader / zipWriter.Create /
   os.Open / io.Copy fails; the walk function then returns that error and
   filepath.Walk aborts the whole traversal.  Result: the zip entry names
   that reached the stream, in order, and whether the walk returned an
   error. -/
mutual
def walkNode (failAt : Option String) (relPath : String) : FSTree → List String × Bool
  | .file _ =>
      if relPath = "." ∨ relPath = ".." then ([], false)
      else if failAt = some relPath then ([], true)
      else ([relPath], false)
  | .dir cs =>
      if relPath = "." ∨ relPath = ".." then walkList failAt relPath cs
      else
        if failAt = some (if hasSuffix relPath "/" then relPath else relPath ++ "/") then
          ([], true)
        else
          ((if hasSuffix relPath "/" then relPath else relPath ++ "/") ::
            (walkList failAt relPath cs).1,
           (walkList failAt relPath cs).2)
def walkList (failAt : Option String) (relPath : String) : FSList → List String × Bool
  | .nil => ([], false)
  | .cons n t rest =>
      if (walkNode failAt (relPath ++ "/" ++ n) t).2 then
        walkNode failAt (relPath ++ "/" ++ n) t
      else
        ((walkNode failAt (relPath ++ "/" ++ n) t).1 ++
          (walkList failAt relPath rest).1,
         (walkList failAt relPath rest).2)
end

/- filepath.Walk of filepath.Join(tmpDir, "site-packages"); when the
   installer did not create that directory the initial lstat fails, the
   walk function receives the error and returns it, so nothing is emitted
   and the walk ends in an error. -/
def walkSite (site : Option FSTree) (failAt : Option String) : List String × Bool :=
  match site with
  | none => ([], true)
  | some t => walkNode failAt "site-packages" (normTree t)

/- View of the request body as mime/multipart sees it.  parseError marks
   a syntactically bad multipart body; requirementsPart and
   constraintsPart hold the content of the equally named file parts;
   fileBytes and nonFileBytes are the total payload bytes carried in file
   parts and in plain field values respectively. -/
structure MultipartForm where
  parseError : Bool
  requirementsPart : Option String
  constraintsPart : Option String
  fileBytes : Nat
  nonFileBytes : Nat
deriving Repr

/- View of the request body as the encoding/json decoder sees it:
   malformed marks a failing decode into PythonFiles (bad JSON, wrong
   value types, or a body whose single object is cut off by the 10MB
   io.LimitReader), and the two options hold the string values found at
   the tagged keys. -/
structure JSONBody where
  malformed : Bool
  requirements : Option String
  constraints : Option String
deriving Repr

structure Request where
  method : String
  contentType : String
  multipartView : MultipartForm
  jsonView : JSONBody
deriving Repr

def parseMultipartMaxMemory : Nat := 20 <<< 20

def jsonBodyLimit : Nat := 10 * 1024 * 1024

/- r.ParseMultipartForm(20 << 20): per the Go mime/multipart form reader,
   the argument caps only in-memory storage.  Plain (non-file) field
   values beyond maxMemory + 10MB make the parse fail with a
   message-too-large error, while file parts past the cap are spooled to
   temporary files on disk with no total-size check at all. -/
def parseMultipartForm (f : MultipartForm) : Bool :=
  !f.parseError && decide (f.nonFileBytes ≤ parseMultipartMaxMemory + 10 <<< 20)

/- The multipart branch of handleInstall: parse the form, then FormFile
   "requirements.txt" (missing file part is a 400) and optionally
   FormFile "constraints.txt" (its absence is ignored). -/
def decodeMultipart (f : MultipartForm) : Except String PythonFiles :=
  if parseMultipartForm f = false then .error "Error parsing multipart form"
  else
    match f.requirementsPart with
    | none => .error "Missing requirements.txt file in form-data"
    | some req =>
        match f.constraintsPart with
        | none => .ok ⟨req, ""⟩
        | some con => .ok ⟨req, con⟩

/- The JSON branch: json.NewDecoder(io.LimitReader(r.Body, 10MB)) into
   PythonFiles; a key absent from the object leaves the zero value "". -/
def decodeJSON (j : JSONBody) : Except String PythonFiles :=
  if j.malformed then .error "Error decoding request body"
  else .ok ⟨j.requirements.getD "", j.constraints.getD ""⟩

/- The content-type dispatch of handleInstall:
   strings.HasPrefix(contentType, "multipart/form-data"). -/
def decodeBody (req : Request) : Except String PythonFiles :=
  if hasPrefix req.contentType "multipart/form-data" then
    decodeMultipart req.multipartView
  else decodeJSON req.jsonView

def basePipArgs : List String :=
  ["install", "-r", "requirements.txt", "--target", "site-packages"]

/- pipArgs from main.go: the "-c constraints.txt" pair is appended exactly
   when the decoded constraints text is nonempty. -/
def pipArgsFor (py : PythonFiles) : List String :=
  if py.constraintsTXT ≠ "" then basePipArgs ++ ["-c", "constraints.txt"]
  else basePipArgs

/- npm variant: npmCommand starts as "install" and becomes "ci" exactly
   when the decoded package-lock text is nonempty. -/
def npmCommandFor (pf : PackageFiles) : String :=
  if pf.packageLockJSON ≠ "" then "ci" else "install"

/- Everything outside the handler's own control: filesystem call
   outcomes, the installer subprocess, and a runtime-fault injector.
   panicAt = some k models a Go runtime fault thrown at checkpoint k of
   the handler body (0 before the requirements.txt write, 1 before the
   constraints step, 2 before the subprocess, 3 after a successful
   subprocess, 4 after the zip writer is opened); Go runs the deferred
   calls while unwinding, so os.RemoveAll and zipWriter.Close still
   execute on that path. -/
structure Env where
  mkdirOk : Bool
  writeReqOk : Bool
  writeConOk : Bool
  installExitCode : Nat
  installStderr : String
  siteOutput : Option FSTree
  failAt : Option String
  panicAt : Option Nat

/- Observable outcome of one request: the HTTP status (none when a
   runtime fault cut the handler off and no clean response exists), the
   plain-text error body, the response headers, the zip entry names that
   reached the stream, whether the zip trailer was written, and
   bookkeeping for the workspace, the manifest files and the subprocess. -/
structure HResult where
  status : Option Nat
  body : String
  headers : List (String × String)
  entries : List String
  zipOpened : Bool
  zipFinalized : Bool
  walkErrored : Bool
  wroteReqFile : Bool
  wroteConFile : Bool
  pipArgs : List String
  ranInstaller : Bool
  wsCreated : Bool
  wsExistsAfter : Bool
  panicked : Bool
deriving Repr, DecidableEq

def HResult.base : HResult :=
  { status := none, body := "", headers := [], entries := [],
    zipOpened := false, zipFinalized := false, walkErrored := false,
    wroteReqFile := false, wroteConFile := false, pipArgs := [],
    ranInstaller := false, wsCreated := false, wsExistsAfter := false,
    panicked := false }

/- http.Error before any body byte has been written: sets the status and
   a plain-text body. -/
def httpError (code : Nat) (msg : String) : HResult :=
  { HResult.base with status := some code, body := msg }

/- net/http Header.Get: the empty string when the key is unset. -/
def headerGet (hs : List (String × String)) (k : String) : String :=
  match hs.find? (fun p => p.1 == k) with
  | some p => p.2
  | none => ""

def contentTypeHeaders : List (String × String) :=
  [("Content-Type", "application/zip"),
   ("Content-Disposition", "attachment; filename=\"python_packages.zip\"")]

/- The code from w.Header().Set("Content-Type", ...) to the end of the
   handler: both success headers are set and the zip writer opened before
   the walk starts, and zipWriter.Close is deferred, so the zip trailer
   is written on every exit from this region; with no explicit
   WriteHeader, the first streamed byte (at the latest the trailer)
   fixes the status at 200.  On a walk error the source only logs,
   unless w.Header().Get("Content-Type") is empty — that guard is
   reproduced literally; its error branch mirrors the http.Error call of
   the source even though the handler itself just set that header. -/
def afterInstallStream (env : Env) (st : HResult) : HResult :=
  if env.panicAt = some 4 then
    { st with
      headers := contentTypeHeaders, zipOpened := true,
      zipFinalized := true, panicked := true }
  else if (walkSite env.siteOutput env.failAt).2 then
    if headerGet contentTypeHeaders "Content-Type" = "" then
      { st with
        headers := contentTypeHeaders, zipOpened := true,
        entries := (walkSite env.siteOutput env.failAt).1,
        walkErrored := true, zipFinalized := true,
        status := some 500, body := st.body ++ "Error zipping files" }
    else
      { st with
        headers := contentTypeHeaders, zipOpened := true,
        entries := (walkSite env.siteOutput env.failAt).1,
        walkErrored := true, zipFinalized := true, status := some 200 }
  else
    { st with
      headers := contentTypeHeaders, zipOpened := true,
      entries := (walkSite env.siteOutput env.failAt).1,
      walkErrored := false, zipFinalized := true, status := some 200 }

/- exec.Command("pip", pipArgs...) with Dir set to the workspace and
   stderr captured into a buffer; cmd.Run reports the exit status.  On a
   nonzero exit the handler answers 500 with the formatted message
   carrying the captured stderr text and returns before any header or
   zip work. -/
def runInstaller (env : Env) (st : HResult) (args : List String) : HResult :=
  if env.panicAt = some 2 then { st with pipArgs := args, panicked := true }
  else if env.installExitCode ≠ 0 then
    { st with
      pipArgs := args, ranInstaller := true, status := some 500,
      body := "pip install failed: exit status " ++ toString env.installExitCode ++
        "\nStderr: " ++ env.installStderr }
  else if env.panicAt = some 3 then
    { st with pipArgs := args, ranInstaller := true, panicked := true }
  else afterInstallStream env { st with pipArgs := args, ranInstaller := true }

/- The handler body after os.MkdirTemp succeeded: write requirements.txt
   (500 on failure), then, when constraints text is present, write
   constraints.txt (500 on failure) and extend pipArgs, then run pip. -/
def innerRun (py : PythonFiles) (env : Env) : HResult :=
  if env.panicAt = some 0 then { HResult.base with panicked := true }
  else if env.writeReqOk = false then
    { HResult.base with
      status := some 500,
      body := "Failed to write requirements.txt" }
  else if env.panicAt = some 1 then
    { HResult.base with wroteReqFile := true, panicked := true }
  else if py.constraintsTXT ≠ "" then
    if env.writeConOk = false then
      { HResult.base with
        wroteReqFile := true, status := some 500,
        body := "Failed to write constraints.txt" }
    else
      runInstaller env
        { HResult.base with
          wroteReqFile := true, wroteConFile := true }
        (pipArgsFor py)
  else runInstaller env { HResult.base with wroteReqFile := true } (pipArgsFor py)

/- defer os.RemoveAll(tmpDir), registered directly after the successful
   os.MkdirTemp: every exit from the rest of the handler, runtime faults
   included, runs it, so the workspace directory is gone afterwards. -/
def finalizeWorkspace (r : HResult) : HResult :=
  { r with wsCreated := true, wsExistsAfter := false }

/- handleInstall after a successful decode: the empty-primary check, then
   os.MkdirTemp (500 on failure), then the workspace-scoped body. -/
def handleDecoded (env : Env) (py : PythonFiles) : HResult :=
  if py.requirementsTXT = "" then
    httpError 400 "Missing requirements.txt in request"
  else if env.mkdirOk = false then
    httpError 500 "Failed to create temp directory"
  else finalizeWorkspace (innerRun py env)

/- handleInstall from main.go: method check, content-type dispatching
   decode, then the decoded pipeline. -/
def handleInstall (req : Request) (env : Env) : HResult :=
  if req.method ≠ "POST" then httpError 405 "Only POST method is allowed"
  else
    match decodeBody req with
    | .error msg => httpError 400 msg
    | .ok py => handleDecoded env py

/- Concrete requests and environments used below. -/

def emptyMultipartView : MultipartForm :=
  { parseError := false, requirementsPart := none, constraintsPart := none,
    fileBytes := 0, nonFileBytes := 0 }

def emptyJSONView : JSONBody :=
  { malformed := false, requirements := none, constraints := none }

/- The two descriptor texts sent as an application/json body. -/
def jsonRequestOf (p : String) (l : Option String) : Request :=
  { method := "POST", contentType := "application/json",
    multipartView := emptyMultipartView,
    jsonView := { malformed := false, requirements := some p, constraints := l } }

/- The same two texts sent as multipart file parts, n payload bytes in
   file parts in total. -/
def multipartRequestOf (p : String) (l : Option String) (n : Nat) : Request :=
  { method := "POST", contentType := "multipart/form-data; boundary=x",
    multipartView := { parseError := false, requirementsPart := some p,
                       constraintsPart := l, fileBytes := n, nonFileBytes := 0 },
    jsonView := emptyJSONView }

/- Installer succeeds but leaves no site-packages directory behind. -/
def envNoOutput : Env :=
  { mkdirOk := true, writeReqOk := true, writeConOk := true,
    installExitCode := 0, installStderr := "", siteOutput := none,
    failAt := none, panicAt := none }

def treeAB : FSTree :=
  .dir (.cons "a" (.dir (.cons "b.txt" (.file "hello") .nil)) .nil)

/- Installer succeeds and leaves exactly one file a/b.txt under
   site-packages. -/
def envAB : Env := { envNoOutput with siteOutput := some treeAB }

/- Installer exits 1 with stderr "conflict". -/
def envConflict : Env :=
  { envNoOutput with installExitCode := 1, installStderr := "conflict" }

/- A JSON request whose object carries neither descriptor key. -/
def reqNoPrimary : Request :=
  { method := "POST", contentType := "application/json",
    multipartView := emptyMultipartView, jsonView := emptyJSONView }

/- Helper lemmas shared by the claim proofs. -/

lemma decodeBody_jsonRequestOf (p : String) (l : Option String) :
    decodeBody (jsonRequestOf p l) = .ok ⟨p, l.getD ""⟩ := rfl

lemma decodeBody_multipartRequestOf (p : String) (l : Option String) (n : Nat) :
    decodeBody (multipartRequestOf p l n) = .ok ⟨p, l.getD ""⟩ := by
  cases l <;> rfl

lemma runInstaller_wroteConFile (env : Env) (st : HResult) (args : List String) :
    (runInstaller env st args).wroteConFile = st.wroteConFile := by
  unfold runInstaller afterInstallStream
  repeat' split
  all_goals rfl

lemma runInstaller_pipArgs (env : Env) (st : HResult) (args : List String) :
    (runInstaller env st args).pipArgs = args := by
  unfold runInstaller afterInstallStream
  repeat' split
  all_goals rfl

lemma innerRun_wroteConFile_of_empty (py : PythonFiles) (env : Env)
    (h : py.constraintsTXT = "") :
    (innerRun py env).wroteConFile = false := by
  unfold innerRun
  repeat' split
  all_goals first
    | rfl
    | exact absurd h (by assumption)
    | (rw [runInstaller_wroteConFile]; rfl)

lemma innerRun_pipArgs_no_con (py : PythonFiles) (env : Env)
    (h : py.constraintsTXT = "") :
    "-c" ∉ (innerRun py env).pipArgs := by
  unfold innerRun
  repeat' split
  all_goals first
    | exact List.not_mem_nil "-c"
    | exact absurd h (by assumption)
    | (rw [runInstaller_pipArgs]; simp [pipArgsFor, h, basePipArgs])

lemma handleDecoded_no_con (env : Env) (p : String) :
    (handleDecoded env ⟨p, ""⟩).wroteConFile = false ∧
    "-c" ∉ (handleDecoded env ⟨p, ""⟩).pipArgs := by
  unfold handleDecoded
  split
  · exact ⟨rfl, List.not_mem_nil "-c"⟩
  · split
    · exact ⟨rfl, List.not_mem_nil "-c"⟩
    · exact ⟨innerRun_wroteConFile_of_empty ⟨p, ""⟩ env rfl,
        innerRun_pipArgs_no_con ⟨p, ""⟩ env rfl⟩

/-- C4: for every valid decoded manifest the reproducible install mode
(pip with -c constraints.txt; npm ci) is selected exactly when the
lock/constraints descriptor is present (nonempty) alongside the primary
descriptor: never with only the primary descriptor, always with both. -/
theorem reproducible_mode_iff_lock_present (py : PythonFiles) (pf : PackageFiles)
    (_hpy : py.requirementsTXT ≠ "") (_hpf : pf.packageJSON ≠ "") :
    ("-c" ∈ pipArgsFor py ↔ py.constraintsTXT ≠ "") ∧
    (npmCommandFor pf = "ci" ↔ pf.packageLockJSON ≠ "") := by
  constructor
  · unfold pipArgsFor basePipArgs
    split <;> simp_all
  · unfold npmCommandFor
    split <;> simp_all

/-- C4 witness: a concrete manifest pair with both descriptors present,
instantiating the theorem. -/
theorem reproducible_mode_witness :
    ("-c" ∈ pipArgsFor ⟨"requests", "requests==2.0"⟩ ↔
      (PythonFiles.mk "requests" "requests==2.0").constraintsTXT ≠ "") ∧
    (npmCommandFor ⟨"x", "y"⟩ = "ci" ↔
      (PackageFiles.mk "x" "y").packageLockJSON ≠ "") :=
  reproducible_mode_iff_lock_present ⟨"requests", "requests==2.0"⟩ ⟨"x", "y"⟩
    (by decide) (by decide)

/-- C8: the two wire encodings of the same descriptor texts decode to the
same PythonFiles value, and the whole handler outcome is identical in any
environment, so every downstream step is encoding-agnostic. -/
theorem wire_encodings_equivalent (p : String) (l : Option String) (n : Nat) (env : Env) :
    decodeBody (jsonRequestOf p l) = decodeBody (multipartRequestOf p l n) ∧
    handleInstall (jsonRequestOf p l) env = handleInstall (multipartRequestOf p l n) env := by
  cases l <;> exact ⟨rfl, rfl⟩

/-- C10: in the JSON encoding a lock/constraints key holding the empty
string behaves exactly like an absent key: the handler outcome is
identical, no constraints file is written, and the resolving argument
list (without -c) is the one selected. -/
theorem empty_constraints_equals_absent (p : String) (env : Env) :
    handleInstall (jsonRequestOf p (some "")) env =
      handleInstall (jsonRequestOf p none) env ∧
    (handleInstall (jsonRequestOf p none) env).wroteConFile = false ∧
    "-c" ∉ (handleInstall (jsonRequestOf p none) env).pipArgs := by
  refine ⟨rfl, ?_⟩
  have h : handleInstall (jsonRequestOf p none) env = handleDecoded env ⟨p, ""⟩ := rfl
  rw [h]
  exact handleDecoded_no_con env p

/-- C3 counterexample: a multipart request carrying 64MB of file-part
payload — far beyond the 20MB figure handed to ParseMultipartForm — is
not rejected: the whole request succeeds with HTTP 200 instead of a 400
payload-too-large rejection. -/
theorem oversized_multipart_accepted :
    parseMultipartMaxMemory <
      (multipartRequestOf "flask" none (64 <<< 20)).multipartView.fileBytes ∧
    (handleInstall (multipartRequestOf "flask" none (64 <<< 20)) envAB).status =
      some 200 := by
  exact ⟨by decide, by decide⟩

/-- C3 (amended): the multipart decoding path bounds only the in-memory
portion of the form (ParseMultipartForm's argument; plain field values
beyond maxMemory + 10MB fail, file parts spill to disk), so the total
bytes read are not capped: a multipart payload of any size in file parts
decodes successfully and is never rejected as too large. -/
theorem multipart_file_bytes_unbounded (n : Nat) :
    decodeMultipart
      { parseError := false, requirementsPart := some "flask",
        constraintsPart := none, fileBytes := n, nonFileBytes := 0 } =
      .ok ⟨"flask", ""⟩ := rfl

/- On a POST request the method guard vanishes. -/
lemma handleInstall_post (req : Request) (env : Env) (hm : req.method = "POST") :
    handleInstall req env =
      match decodeBody req with
      | .error msg => httpError 400 msg
      | .ok py => handleDecoded env py := by
  unfold handleInstall
  rw [hm]
  simp

/- Every run of handleInstall is either an early http.Error exit or the
   workspace-scoped body wrapped in the deferred removal. -/
lemma handleInstall_shape (req : Request) (env : Env) :
    (∃ c m, handleInstall req env = httpError c m) ∨
    ∃ py, handleInstall req env = finalizeWorkspace (innerRun py env) := by
  unfold handleInstall handleDecoded
  repeat' split
  all_goals first
    | exact Or.inl ⟨_, _, rfl⟩
    | exact Or.inr ⟨_, rfl⟩

/-- C7: whenever a workspace directory was created for a request, it no
longer exists once the handler finishes, on every exit path: successful
archiving, file-write failure, installer failure, walk failure, and the
modelled runtime faults (the deferred removal runs while unwinding). -/
theorem workspace_always_removed (req : Request) (env : Env)
    (h : (handleInstall req env).wsCreated = true) :
    (handleInstall req env).wsExistsAfter = false := by
  rcases handleInstall_shape req env with ⟨c, m, hf⟩ | ⟨py, he⟩
  · rw [hf] at h
    exact absurd h (by simp [httpError, HResult.base])
  · rw [he]
    rfl

/-- C7 witness: a fully successful concrete request, whose workspace was
created and is gone afterwards. -/
theorem workspace_always_removed_witness :
    (handleInstall (jsonRequestOf "flask" none) envAB).wsCreated = true ∧
    (handleInstall (jsonRequestOf "flask" none) envAB).wsExistsAfter = false :=
  ⟨rfl, workspace_always_removed (jsonRequestOf "flask" none) envAB rfl⟩

/- The primary descriptor is absent or empty in the wire encoding the
   content-type dispatch will select. -/
def primaryMissing (req : Request) : Prop :=
  if hasPrefix req.contentType "multipart/form-data" then
    req.multipartView.requirementsPart = none ∨
      req.multipartView.requirementsPart = some ""
  else
    req.jsonView.requirements = none ∨ req.jsonView.requirements = some ""

/-- C5: a POST request whose primary descriptor is absent or empty, in
either wire encoding, is answered with HTTP 400 and no workspace is ever
created for it. -/
theorem missing_primary_yields_400_no_workspace (req : Request) (env : Env)
    (hm : req.method = "POST") (hp : primaryMissing req) :
    (handleInstall req env).status = some 400 ∧
    (handleInstall req env).wsCreated = false := by
  rw [handleInstall_post req env hm]
  cases hd : decodeBody req with
  | error msg => exact ⟨rfl, rfl⟩
  | ok py =>
      have hreq : py.requirementsTXT = "" := by
        unfold decodeBody at hd
        unfold primaryMissing at hp
        split at hp
        · rw [if_pos (by assumption)] at hd
          unfold decodeMultipart at hd
          split at hd
          · simp at hd
          · rcases hp with h1 | h1 <;> rw [h1] at hd
            · simp at hd
            · cases hcon : req.multipartView.constraintsPart <;>
                rw [hcon] at hd <;> simp at hd <;> rw [← hd]
        · rw [if_neg (by assumption)] at hd
          unfold decodeJSON at hd
          split at hd
          · simp at hd
          · simp at hd
            rcases hp with h1 | h1 <;> rw [← hd, h1] <;> rfl
      show (handleDecoded env py).status = some 400 ∧
        (handleDecoded env py).wsCreated = false
      unfold handleDecoded
      rw [if_pos hreq]
      exact ⟨rfl, rfl⟩

/-- C5 witness: a JSON request with no descriptor keys at all. -/
theorem missing_primary_witness :
    (handleInstall reqNoPrimary envNoOutput).status = some 400 ∧
    (handleInstall reqNoPrimary envNoOutput).wsCreated = false :=
  missing_primary_yields_400_no_workspace reqNoPrimary envNoOutput rfl
    (by unfold primaryMissing reqNoPrimary emptyJSONView; exact Or.inl rfl)

/- The failing-installer branch of runInstaller, in closed form. -/
lemma runInstaller_fail (env : Env) (st : HResult) (args : List String)
    (hp : env.panicAt = none) (hx : env.installExitCode ≠ 0) :
    runInstaller env st args =
      { st with
        pipArgs := args, ranInstaller := true, status := some 500,
        body := "pip install failed: exit status " ++ toString env.installExitCode ++
          "\nStderr: " ++ env.installStderr } := by
  unfold runInstaller
  rw [hp]
  rw [if_neg (by simp), if_pos hx]

/- The successful-installer branch of runInstaller reaches the streaming
   region. -/
lemma runInstaller_ok (env : Env) (st : HResult) (args : List String)
    (hp : env.panicAt = none) (hx : env.installExitCode = 0) :
    runInstaller env st args =
      afterInstallStream env { st with pipArgs := args, ranInstaller := true } := by
  unfold runInstaller
  rw [hp, hx]
  rw [if_neg (by simp), if_neg (by simp), if_neg (by simp)]

/- innerRun under a failing installer: 500, stderr in the body, and no
   streaming artifacts. -/
lemma innerRun_fail (py : PythonFiles) (env : Env)
    (hp : env.panicAt = none) (hw : env.writeReqOk = true)
    (hc : py.constraintsTXT ≠ "" → env.writeConOk = true)
    (hx : env.installExitCode ≠ 0) :
    (innerRun py env).status = some 500 ∧
    (∃ pre, (innerRun py env).body = pre ++ env.installStderr) ∧
    (innerRun py env).entries = [] ∧
    (innerRun py env).zipOpened = false ∧
    (innerRun py env).headers = [] := by
  unfold innerRun
  rw [hp, hw]
  rw [if_neg (by simp), if_neg (by simp), if_neg (by simp)]
  by_cases hcon : py.constraintsTXT ≠ ""
  · rw [if_pos hcon, if_neg (by simp [hc hcon]), runInstaller_fail env _ _ hp hx]
    exact ⟨rfl, ⟨_, rfl⟩, rfl, rfl, rfl⟩
  · rw [if_neg hcon, runInstaller_fail env _ _ hp hx]
    exact ⟨rfl, ⟨_, rfl⟩, rfl, rfl, rfl⟩

/- innerRun under a successful installer reaches afterInstallStream with
   a clean intermediate state. -/
lemma innerRun_ok (py : PythonFiles) (env : Env)
    (hp : env.panicAt = none) (hw : env.writeReqOk = true)
    (hc : py.constraintsTXT ≠ "" → env.writeConOk = true)
    (hx : env.installExitCode = 0) :
    ∃ st, innerRun py env = afterInstallStream env st ∧
      st.body = "" ∧ st.status = none ∧ st.walkErrored = false := by
  unfold innerRun
  rw [hp, hw]
  rw [if_neg (by simp), if_neg (by simp), if_neg (by simp)]
  by_cases hcon : py.constraintsTXT ≠ ""
  · rw [if_pos hcon, if_neg (by simp [hc hcon]), runInstaller_ok env _ _ hp hx]
    exact ⟨_, rfl, rfl, rfl, rfl⟩
  · rw [if_neg hcon, runInstaller_ok env _ _ hp hx]
    exact ⟨_, rfl, rfl, rfl, rfl⟩

/- When the installer left no output subtree, the walk errors at once and
   the streaming region ends with the success status, no error body and
   no entries. -/
lemma afterInstallStream_noOutput (env : Env) (st : HResult)
    (hp : env.panicAt = none) (hs : env.siteOutput = none) :
    afterInstallStream env st =
      { st with
        headers := contentTypeHeaders, zipOpened := true,
        entries := [], walkErrored := true, zipFinalized := true,
        status := some 200 } := by
  have hwk : walkSite env.siteOutput env.failAt = ([], true) := by
    rw [hs]
    rfl
  unfold afterInstallStream
  rw [hp, hwk]
  rw [if_neg (by simp), if_pos rfl,
    if_neg (show ¬headerGet contentTypeHeaders "Content-Type" = "" by decide)]

/- A walk error inside the streaming region never changes the response:
   the guard on an unset Content-Type is always false because the handler
   set that header itself, so the status stays 200 and no error body is
   written. -/
lemma afterInstallStream_on_error (env : Env) (st : HResult)
    (hb : st.body = "") (hwe : st.walkErrored = false)
    (he : (afterInstallStream env st).walkErrored = true) :
    (afterInstallStream env st).status = some 200 ∧
    (afterInstallStream env st).body = "" ∧
    (afterInstallStream env st).zipFinalized = true := by
  unfold afterInstallStream at he ⊢
  by_cases h4 : env.panicAt = some 4
  · rw [if_pos h4] at he
    simp [hwe] at he
  · rw [if_neg h4] at he ⊢
    by_cases hw2 : (walkSite env.siteOutput env.failAt).2 = true
    · rw [if_pos hw2,
        if_neg (show ¬headerGet contentTypeHeaders "Content-Type" = "" by decide)]
      exact ⟨rfl, hb, rfl⟩
    · rw [if_neg hw2] at he
      simp at he

/- Either innerRun stops before the streaming region, or it is exactly
   afterInstallStream on a clean intermediate state. -/
lemma runInstaller_shape (env : Env) (st : HResult) (args : List String)
    (hz : st.zipOpened = false) (hw : st.walkErrored = false)
    (hb : st.body = "") :
    ((runInstaller env st args).zipOpened = false ∧
      (runInstaller env st args).walkErrored = false) ∨
    ∃ st2, runInstaller env st args = afterInstallStream env st2 ∧
      st2.body = "" ∧ st2.walkErrored = false := by
  unfold runInstaller
  by_cases h2 : env.panicAt = some 2
  · rw [if_pos h2]
    exact Or.inl ⟨hz, hw⟩
  · rw [if_neg h2]
    by_cases hx : env.installExitCode ≠ 0
    · rw [if_pos hx]
      exact Or.inl ⟨hz, hw⟩
    · rw [if_neg hx]
      by_cases h3 : env.panicAt = some 3
      · rw [if_pos h3]
        exact Or.inl ⟨hz, hw⟩
      · rw [if_neg h3]
        exact Or.inr ⟨_, rfl, hb, hw⟩

lemma innerRun_shape (py : PythonFiles) (env : Env) :
    ((innerRun py env).zipOpened = false ∧ (innerRun py env).walkErrored = false) ∨
    ∃ st, innerRun py env = afterInstallStream env st ∧
      st.body = "" ∧ st.walkErrored = false := by
  unfold innerRun
  by_cases h0 : env.panicAt = some 0
  · rw [if_pos h0]
    exact Or.inl ⟨rfl, rfl⟩
  · rw [if_neg h0]
    by_cases hw : env.writeReqOk = false
    · rw [if_pos hw]
      exact Or.inl ⟨rfl, rfl⟩
    · rw [if_neg hw]
      by_cases h1 : env.panicAt = some 1
      · rw [if_pos h1]
        exact Or.inl ⟨rfl, rfl⟩
      · rw [if_neg h1]
        by_cases hcon : py.constraintsTXT ≠ ""
        · rw [if_pos hcon]
          by_cases hwc : env.writeConOk = false
          · rw [if_pos hwc]
            exact Or.inl ⟨rfl, rfl⟩
          · rw [if_neg hwc]
            exact runInstaller_shape env _ _ rfl rfl rfl
        · rw [if_neg hcon]
          exact runInstaller_shape env _ _ rfl rfl rfl

/-- C6: when the installer subprocess exits nonzero the handler responds
HTTP 500 with a body that ends in the captured stderr text, and nothing
of the archive path happens: no success headers, no zip writer, no
entries. -/
theorem installer_failure_500_stderr_no_stream (req : Request) (env : Env)
    (py : PythonFiles) (hm : req.method = "POST") (hd : decodeBody req = .ok py)
    (hr : ¬py.requirementsTXT = "") (hmk : env.mkdirOk = true)
    (hw : env.writeReqOk = true)
    (hc : py.constraintsTXT ≠ "" → env.writeConOk = true)
    (hp : env.panicAt = none) (hx : env.installExitCode ≠ 0) :
    (handleInstall req env).status = some 500 ∧
    (∃ pre, (handleInstall req env).body = pre ++ env.installStderr) ∧
    (handleInstall req env).entries = [] ∧
    (handleInstall req env).zipOpened = false ∧
    (handleInstall req env).headers = [] := by
  have h1 : handleInstall req env = finalizeWorkspace (innerRun py env) := by
    rw [handleInstall_post req env hm, hd]
    show handleDecoded env py = _
    unfold handleDecoded
    rw [if_neg hr, if_neg (by simp [hmk])]
  rw [h1]
  have h2 := innerRun_fail py env hp hw hc hx
  exact ⟨h2.1, h2.2.1, h2.2.2.1, h2.2.2.2.1, h2.2.2.2.2⟩

/-- C6 witness: installer exits 1 with stderr "conflict" on a valid JSON
request. -/
theorem installer_failure_witness :
    (handleInstall (jsonRequestOf "flask" none) envConflict).status = some 500 ∧
    (∃ pre, (handleInstall (jsonRequestOf "flask" none) envConflict).body =
      pre ++ envConflict.installStderr) ∧
    (handleInstall (jsonRequestOf "flask" none) envConflict).entries = [] ∧
    (handleInstall (jsonRequestOf "flask" none) envConflict).zipOpened = false ∧
    (handleInstall (jsonRequestOf "flask" none) envConflict).headers = [] :=
  installer_failure_500_stderr_no_stream (jsonRequestOf "flask" none) envConflict
    ⟨"flask", ""⟩ rfl rfl (by decide) rfl rfl (fun _ => rfl) rfl (by decide)

/-- C9: once the success headers are set and the zip writer opened, a
traversal failure never turns into an error response: the status stays
200, no error body is written (the failure is only logged), and the
deferred close still finalizes the stream, so the client sees an archive
cut short rather than a clean error. -/
theorem post_stream_failure_silent (req : Request) (env : Env)
    (hz : (handleInstall req env).zipOpened = true)
    (he : (handleInstall req env).walkErrored = true) :
    (handleInstall req env).status = some 200 ∧
    (handleInstall req env).body = "" ∧
    (handleInstall req env).zipFinalized = true := by
  rcases handleInstall_shape req env with ⟨c, m, hf⟩ | ⟨py, heq⟩
  · rw [hf] at hz
    exact absurd hz (by simp [httpError, HResult.base])
  · rcases innerRun_shape py env with ⟨h1, h2⟩ | ⟨st, hst, hb, hwe⟩
    · rw [heq] at he
      simp only [finalizeWorkspace] at he
      rw [h2] at he
      exact absurd he (by decide)
    · rw [heq, hst] at he ⊢
      have h3 := afterInstallStream_on_error env st hb hwe he
      exact ⟨h3.1, h3.2.1, h3.2.2⟩

/-- C9 witness: a request whose walk fails at its first step (missing
output subtree) after streaming began. -/
theorem post_stream_failure_witness :
    (handleInstall (jsonRequestOf "flask" none) envNoOutput).status = some 200 ∧
    (handleInstall (jsonRequestOf "flask" none) envNoOutput).body = "" ∧
    (handleInstall (jsonRequestOf "flask" none) envNoOutput).zipFinalized = true :=
  post_stream_failure_silent (jsonRequestOf "flask" none) envNoOutput rfl rfl

/-- C1 counterexample: installer exits zero and site-packages is missing,
yet the response is HTTP 200 with an empty body — no InstallError and no
HTTP 500 exist on this path, contradicting the claim. -/
theorem missing_output_not_500 :
    (handleInstall (jsonRequestOf "flask" none) envNoOutput).status = some 200 ∧
    (handleInstall (jsonRequestOf "flask" none) envNoOutput).status ≠ some 500 ∧
    (handleInstall (jsonRequestOf "flask" none) envNoOutput).body = "" := by
  decide

/-- C1 (amended): when the installer exits zero but the output subtree is
missing, the handler does not fail: the success headers are set, the
archive walk errors immediately, the failure is only logged (the guard
checks a Content-Type header the handler itself just set), and the
client receives HTTP 200 with no error body, no entries and a finalized
empty archive. -/
theorem missing_output_streams_empty_200 (req : Request) (env : Env)
    (py : PythonFiles) (hm : req.method = "POST") (hd : decodeBody req = .ok py)
    (hr : ¬py.requirementsTXT = "") (hmk : env.mkdirOk = true)
    (hw : env.writeReqOk = true)
    (hc : py.constraintsTXT ≠ "" → env.writeConOk = true)
    (hp : env.panicAt = none) (hx : env.installExitCode = 0)
    (hs : env.siteOutput = none) :
    (handleInstall req env).status = some 200 ∧
    (handleInstall req env).body = "" ∧
    (handleInstall req env).entries = [] ∧
    (handleInstall req env).walkErrored = true ∧
    (handleInstall req env).zipFinalized = true := by
  have h1 : handleInstall req env = finalizeWorkspace (innerRun py env) := by
    rw [handleInstall_post req env hm, hd]
    show handleDecoded env py = _
    unfold handleDecoded
    rw [if_neg hr, if_neg (by simp [hmk])]
  rcases innerRun_ok py env hp hw hc hx with ⟨st, hst, hb, _, _⟩
  rw [h1, hst, afterInstallStream_noOutput env st hp hs]
  exact ⟨rfl, hb, rfl, rfl, rfl⟩

/-- C1 witness: concrete instance of the amended claim. -/
theorem missing_output_witness :
    (handleInstall (jsonRequestOf "requests" none) envNoOutput).status = some 200 ∧
    (handleInstall (jsonRequestOf "requests" none) envNoOutput).body = "" ∧
    (handleInstall (jsonRequestOf "requests" none) envNoOutput).entries = [] ∧
    (handleInstall (jsonRequestOf "requests" none) envNoOutput).walkErrored = true ∧
    (handleInstall (jsonRequestOf "requests" none) envNoOutput).zipFinalized = true :=
  missing_output_streams_empty_200 (jsonRequestOf "requests" none) envNoOutput
    ⟨"requests", ""⟩ rfl rfl (by decide) rfl rfl (fun _ => rfl) rfl rfl rfl

/-- C2 counterexample: with the installer leaving exactly one file
a/b.txt under the output subtree, the streamed entries are not the
claimed pair a/, a/b.txt. -/
theorem archive_entries_not_bare :
    (handleInstall (jsonRequestOf "flask" none) envAB).status = some 200 ∧
    (handleInstall (jsonRequestOf "flask" none) envAB).entries ≠
      ["a/", "a/b.txt"] := by
  decide

/-- C2 (amended): for that same request the response is HTTP 200 and the
archive contains exactly the entries site-packages/, site-packages/a/
and site-packages/a/b.txt: entry paths are taken relative to the
workspace root, so they carry the output-subtree prefix, and the subtree
root itself is emitted as a directory entry. -/
theorem archive_entries_with_prefix :
    (handleInstall (jsonRequestOf "flask" none) envAB).status = some 200 ∧
    (handleInstall (jsonRequestOf "flask" none) envAB).entries =
      ["site-packages/", "site-packages/a/", "site-packages/a/b.txt"] ∧
    (handleInstall (jsonRequestOf "flask" none) envAB).zipFinalized = true := by
  decide

end PipInstall
